import Mathlib

/-!
# Verification of the datasov Solana programs

A shallow embedding of the two Anchor programs of this repository,
`programs/datasov-identity/src/lib.rs` and
`programs/datasov-solana/src/lib.rs`, together with theorems about the
behaviour of their instruction handlers.

Modelling conventions:

* Solana `Pubkey` values are opaque: only equality of keys is ever used by
  the programs, so they are modelled as `Nat`.
* Rust `String` values are modelled by their byte sequences (`List Nat`);
  Rust's `String::len()` (a byte count) is `List.length`.
* `u16`/`u32`/`u64` fields are `Nat`; where the code performs wrapping or
  truncating machine arithmetic, the reduction modulo `2 ^ 16` / `2 ^ 32` /
  `2 ^ 64` is written explicitly.  `i64` timestamps are `Int`.
* `require!(cond, Err)` becomes `if ¬ cond then .error .Err else ...`, in
  the source's order; fallible handlers return `Except ErrorCode _`.
  An `Except.error` result models a failed transaction: none of the account
  mutations or token transfers of the handler take effect (the runtime
  rolls the whole instruction back), so a handler's successful result
  carries the updated accounts and the amounts moved, and an error result
  carries nothing.
* `Clock::get()?.unix_timestamp` is passed in as an argument `now`; a
  handler reads the clock of a single slot, so every occurrence inside one
  handler has the same value.
* Anchor account allocation: an `init` account is allocated exactly
  `LEN` bytes (the `space = ...LEN` constraint in the accounts struct), and
  at the end of every instruction Anchor writes the Borsh serialization of
  each mutable account back, failing the instruction when the
  serialization does not fit its account.  This write-back check is
  modelled explicitly, as `.error .AccountDidNotSerialize` (an
  Anchor-level error, not one of the program's `ErrorCode`s), after the
  handler body in the source's order, wherever the written record can
  exceed its space: the two `init` handlers whose string inputs are not
  length-checked (`register_oracle`, `create_data_listing`), and the two
  handlers that grow an existing listing record's `Option` fields —
  `purchase_data` (`sold_at` and `buyer`, `none → some`, +40 bytes) and
  `cancel_listing` (`cancelled_at`, +8 bytes) — since the listing's
  strings are never length-checked, so a listing can exist whose record
  no longer fits once grown.  The remaining handlers cannot fail at
  write-back: an existing account's record fits its space by
  construction, identity-record writes stay within
  `IdentityAccount::LEN`'s reservations because `identity_id` and every
  evidence reference are `require!`-checked (≤ 64 / ≤ 128 bytes), and
  `update_listing_price` and the registry/marketplace/oracle updates
  leave the serialized size unchanged.
-/

/-- Solana public keys, used only up to equality. -/
abbrev Pubkey := Nat

/-- A Rust `String`, as its sequence of bytes; `len()` is `List.length`. -/
abbrev Bytes := List Nat

namespace DatasovIdentity

/-- `IdentityStatus` of `datasov-identity` (`Suspended` is declared but no
handler writes it). -/
inductive IdentityStatus
  | Pending
  | Verified
  | Revoked
  | Suspended
deriving DecidableEq, Repr

/-- `VerificationLevel` of `datasov-identity`. -/
inductive VerificationLevel
  | None
  | Basic
  | Enhanced
  | High
  | Credential
deriving DecidableEq, Repr

/-- `PermissionType` of `datasov-identity`. -/
inductive PermissionType
  | ReadOnly
  | ReadWrite
  | Share
  | Analyze
  | Export
deriving DecidableEq, Repr

/-- `DataType` of `datasov-identity`: the permission ledger's category
vocabulary.  Its `Custom` variant carries no label. -/
inductive DataType
  | LocationHistory
  | AppUsage
  | PurchaseHistory
  | HealthData
  | SocialMediaActivity
  | SearchHistory
  | FinancialData
  | CommunicationData
  | Custom
deriving DecidableEq, Repr

/-- The `KYCOracleRegistry` account (`oracle_count` is a `u32`). -/
structure KYCOracleRegistry where
  authority : Pubkey
  minimum_stake : Nat
  slash_amount : Nat
  oracle_count : Nat
  bump : Nat
deriving DecidableEq, Repr

/-- The `KYCOracle` account (`verification_count` and
`successful_verifications` are `u64`, `reputation_score` a `u16`). -/
structure KYCOracle where
  oracle_pubkey : Pubkey
  provider_name : Bytes
  stake_amount : Nat
  verification_count : Nat
  successful_verifications : Nat
  reputation_score : Nat
  is_active : Bool
  registered_at : Int
  bump : Nat
deriving DecidableEq, Repr

/-- `KYCOracle::LEN`: the space allocated for an oracle account. -/
def KYCOracle.LEN : Nat := 8 + 32 + (4 + 64) + 8 + 8 + 8 + 2 + 1 + 8 + 1

/-- Borsh-serialized size of a `KYCOracle` record, with the 8-byte Anchor
discriminator: a `Pubkey` is 32 bytes, a `String` is a 4-byte length prefix
plus its bytes, `u64`/`i64` are 8, `u16` is 2, `bool` and `u8` are 1. -/
def KYCOracle.serializedSize (o : KYCOracle) : Nat :=
  8 + 32 + (4 + o.provider_name.length) + 8 + 8 + 8 + 2 + 1 + 8 + 1

/-- The `IdentityAccount` account of `datasov-identity`. -/
structure IdentityAccount where
  identity_id : Bytes
  owner : Pubkey
  arweave_tx_id : Bytes
  status : IdentityStatus
  verification_level : VerificationLevel
  verified_at : Option Int
  created_at : Int
  updated_at : Int
  bump : Nat
deriving DecidableEq, Repr

/-- The `AccessPermission` account of `datasov-identity`. -/
structure AccessPermission where
  identity_id : Bytes
  consumer : Pubkey
  permission_type : PermissionType
  data_types : List DataType
  granted_at : Int
  expires_at : Option Int
  is_active : Bool
  arweave_proof_tx_id : Bytes
  bump : Nat
deriving DecidableEq, Repr

/-- The `ErrorCode` enum of `datasov-identity`, extended with
`AccountDidNotSerialize`, the Anchor-level failure raised when writing a
record back into its fixed-size account does not fit (see the file
header). -/
inductive ErrorCode
  | InsufficientStake
  | OracleNotActive
  | IdentityIdTooLong
  | ArweaveTxIdTooLong
  | InvalidStatus
  | IdentityNotVerified
  | Unauthorized
  | PermissionNotActive
  | DataTypeNotAuthorized
  | PermissionExpired
  | NoDataTypes
  | TooManyDataTypes
  | AccountDidNotSerialize
deriving DecidableEq, Repr

/-- `register_oracle` (lib.rs lines 27-57).  The body requires
`stake_amount >= registry.minimum_stake` and builds the oracle record with
counters at zero, reputation 5000 and `is_active = true`; `oracle_count` is
incremented with wrapping `u32` arithmetic.  The new account is allocated
`KYCOracle::LEN` bytes (accounts struct, lines 278-285), so the final
write-back fails when the serialized record exceeds that space, which is
the only restriction on the length of `provider_name` (the body has no
length `require!`). -/
def register_oracle (registry : KYCOracleRegistry) (oracle_authority : Pubkey)
    (provider_name : Bytes) (stake_amount : Nat) (now : Int) (bump : Nat) :
    Except ErrorCode (KYCOracleRegistry × KYCOracle) :=
  if stake_amount < registry.minimum_stake then .error .InsufficientStake
  else
    let oracle : KYCOracle :=
      { oracle_pubkey := oracle_authority
        provider_name := provider_name
        stake_amount := stake_amount
        verification_count := 0
        successful_verifications := 0
        reputation_score := 5000
        is_active := true
        registered_at := now
        bump := bump }
    if KYCOracle.LEN < oracle.serializedSize then .error .AccountDidNotSerialize
    else
      .ok ({ registry with oracle_count := (registry.oracle_count + 1) % 2 ^ 32 },
           oracle)

/-- `verify_identity` (lib.rs lines 91-122): requires `status == Pending`,
`oracle.is_active`, and the new evidence reference at most 128 bytes; sets
the identity `Verified` at the requested level with `verified_at = now`,
replaces the evidence reference, and bumps the oracle's
`verification_count` and `successful_verifications` (wrapping `u64`). -/
def verify_identity (identity : IdentityAccount) (oracle : KYCOracle)
    (verification_level : VerificationLevel) (arweave_kyc_tx_id : Bytes)
    (now : Int) : Except ErrorCode (IdentityAccount × KYCOracle) :=
  if identity.status ≠ IdentityStatus.Pending then .error .InvalidStatus
  else if ¬ oracle.is_active then .error .OracleNotActive
  else if ¬ (arweave_kyc_tx_id.length ≤ 128) then .error .ArweaveTxIdTooLong
  else
    .ok ({ identity with
            status := .Verified
            verification_level := verification_level
            verified_at := some now
            arweave_tx_id := arweave_kyc_tx_id
            updated_at := now },
         { oracle with
            verification_count := (oracle.verification_count + 1) % 2 ^ 64
            successful_verifications :=
              (oracle.successful_verifications + 1) % 2 ^ 64 })

/-- `revoke_identity` (lib.rs lines 148-168): requires the caller to be the
identity's owner and the evidence reference at most 128 bytes; there is no
check of the current status.  Sets `status = Revoked` and overwrites the
evidence reference. -/
def revoke_identity (identity : IdentityAccount) (owner : Pubkey)
    (arweave_revocation_tx_id : Bytes) (now : Int) :
    Except ErrorCode IdentityAccount :=
  if identity.owner ≠ owner then .error .Unauthorized
  else if ¬ (arweave_revocation_tx_id.length ≤ 128) then
    .error .ArweaveTxIdTooLong
  else
    .ok { identity with
            status := .Revoked
            arweave_tx_id := arweave_revocation_tx_id
            updated_at := now }

/-- `validate_access` (lib.rs lines 235-254): a read-only check (both
accounts are taken by shared reference and nothing is written back, hence
the `Unit` result).  Requires the identity `Verified`, the permission
active, the requested data type in the permission's `data_types` (Rust
`Vec::contains` with the derived `PartialEq`, i.e. list membership), and,
when `expires_at` is set, `now <` it. -/
def validate_access (identity : IdentityAccount)
    (permission : AccessPermission) (data_type : DataType) (now : Int) :
    Except ErrorCode Unit :=
  if identity.status ≠ IdentityStatus.Verified then .error .IdentityNotVerified
  else if ¬ permission.is_active then .error .PermissionNotActive
  else if data_type ∉ permission.data_types then .error .DataTypeNotAuthorized
  else
    match permission.expires_at with
    | some expires_at =>
        if now < expires_at then .ok () else .error .PermissionExpired
    | none => .ok ()

end DatasovIdentity

namespace DatasovSolana

/-- `DataType` of `datasov-solana`: the marketplace's category vocabulary,
whose `Custom` variant carries a free-text label. -/
inductive DataType
  | LocationHistory
  | AppUsage
  | PurchaseHistory
  | HealthData
  | SocialMediaActivity
  | SearchHistory
  | Custom (label : Bytes)
deriving DecidableEq, Repr

/-- The `ErrorCode` enum of `datasov-solana` (lib.rs lines 425-451),
extended with the Anchor-level `AccountDidNotSerialize` (see the file
header).  `InvalidPrice` is declared at lines 435-436. -/
inductive ErrorCode
  | ListingNotActive
  | InvalidListingId
  | Unauthorized
  | InsufficientFunds
  | InvalidPrice
  | SellerNotVerified
  | BuyerNotVerified
  | IdentityMismatch
  | NoAccessPermission
  | DataTypeNotAuthorized
  | PermissionExpired
  | ArithmeticOverflow
  | AccountDidNotSerialize
deriving DecidableEq, Repr

/-- The `Marketplace` account (`fee_basis_points` is a `u16`,
`total_listings` and `total_volume` are `u64`). -/
structure Marketplace where
  authority : Pubkey
  fee_basis_points : Nat
  total_listings : Nat
  total_volume : Nat
  bump : Nat
deriving DecidableEq, Repr

/-- The `DataListing` account of `datasov-solana`. -/
structure DataListing where
  id : Nat
  owner : Pubkey
  price : Nat
  data_type : DataType
  description : Bytes
  identity_id : Bytes
  is_active : Bool
  created_at : Int
  sold_at : Option Int
  cancelled_at : Option Int
  buyer : Option Pubkey
  bump : Nat
deriving DecidableEq, Repr

/-- `DataListing::LEN`: the space allocated for a listing account. -/
def DataListing.LEN : Nat :=
  8 + 8 + 32 + 8 + 1 + (4 + 200) + (4 + 64) + 1 + 8 + (1 + 8) + (1 + 8) +
    (1 + 32) + 1

/-- Borsh size of a marketplace `DataType` value: 1 tag byte for the unit
variants, and for `Custom` the tag plus a length-prefixed string. -/
def DataType.serializedSize : DataType → Nat
  | .Custom label => 1 + (4 + label.length)
  | _ => 1

/-- Borsh size of an `Option<i64>`: 1 tag byte, plus 8 when present. -/
def optionI64Size : Option Int → Nat
  | none => 1
  | some _ => 1 + 8

/-- Borsh size of an `Option<Pubkey>`: 1 tag byte, plus 32 when present. -/
def optionPubkeySize : Option Pubkey → Nat
  | none => 1
  | some _ => 1 + 32

/-- Borsh-serialized size of a `DataListing` record, with the 8-byte Anchor
discriminator. -/
def DataListing.serializedSize (l : DataListing) : Nat :=
  8 + 8 + 32 + 8 + l.data_type.serializedSize + (4 + l.description.length) +
    (4 + l.identity_id.length) + 1 + 8 + optionI64Size l.sold_at +
    optionI64Size l.cancelled_at + optionPubkeySize l.buyer + 1

/-- `initialize_marketplace` (lib.rs lines 19-32): sets the authority,
stores the `fee_basis_points` argument as given (the body applies no range
check to it), and zeroes both counters.  The body cannot fail. -/
def initialize_marketplace (authority : Pubkey)
    (marketplace_fee_basis_points : Nat) (bump : Nat) : Marketplace :=
  { authority := authority
    fee_basis_points := marketplace_fee_basis_points
    total_listings := 0
    total_volume := 0
    bump := bump }

/-- `create_data_listing` (lib.rs lines 35-65): requires the seller's
backing identity `Verified` and owned by the caller; builds the listing
with `is_active = true` and increments `total_listings` (wrapping `u64`).
The body applies no length check to `description`; the new account is
allocated `DataListing::LEN` bytes (accounts struct, lines 237-244), so
the final write-back fails only when the serialized record exceeds that
space.  (A `listing_id` already in use fails at account creation, before
the body runs; that path is outside this function.) -/
def create_data_listing (listing_id : Nat) (price : Nat)
    (data_type : DataType) (description : Bytes) (identity_id : Bytes)
    (marketplace : Marketplace)
    (seller_identity : DatasovIdentity.IdentityAccount) (owner : Pubkey)
    (now : Int) (bump : Nat) : Except ErrorCode (DataListing × Marketplace) :=
  if seller_identity.status ≠ DatasovIdentity.IdentityStatus.Verified then
    .error .SellerNotVerified
  else if seller_identity.owner ≠ owner then .error .IdentityMismatch
  else
    let listing : DataListing :=
      { id := listing_id
        owner := owner
        price := price
        data_type := data_type
        description := description
        identity_id := identity_id
        is_active := true
        created_at := now
        sold_at := none
        cancelled_at := none
        buyer := none
        bump := bump }
    if DataListing.LEN < listing.serializedSize then
      .error .AccountDidNotSerialize
    else
      .ok (listing,
           { marketplace with
              total_listings := (marketplace.total_listings + 1) % 2 ^ 64 })

/-- The category translation of `purchase_data` (lib.rs lines 93-101): the
six named marketplace categories map one-for-one, and `Custom(_)` collapses
to the identity program's unlabelled `Custom`. -/
def mapDataType : DataType → DatasovIdentity.DataType
  | .LocationHistory => .LocationHistory
  | .AppUsage => .AppUsage
  | .PurchaseHistory => .PurchaseHistory
  | .HealthData => .HealthData
  | .SocialMediaActivity => .SocialMediaActivity
  | .SearchHistory => .SearchHistory
  | .Custom _ => .Custom

/-- The fee computation of `purchase_data` (lib.rs lines 113-121):

* `(purchase_amount as u128).checked_mul(fee_basis_points as u128)` —
  `.ok_or(ArithmeticOverflow)?`: fails when the product reaches `2 ^ 128`;
* `.checked_div(10000).ok_or(ArithmeticOverflow)?` — `checked_div` on
  `u128` returns `None` only for a zero divisor, so this step never fails
  and is plain division;
* `as u64` — a primitive cast that truncates the `u128` quotient modulo
  `2 ^ 64` (it does not fail);
* `purchase_amount.checked_sub(fee_amount).ok_or(ArithmeticOverflow)?` —
  fails when `fee_amount > purchase_amount`.

Returns `(fee_amount, owner_amount)`. -/
def fee_split (purchase_amount : Nat) (fee_basis_points : Nat) :
    Except ErrorCode (Nat × Nat) :=
  if 2 ^ 128 ≤ purchase_amount * fee_basis_points then
    .error .ArithmeticOverflow
  else
    let fee_amount := purchase_amount * fee_basis_points / 10000 % 2 ^ 64
    if purchase_amount < fee_amount then .error .ArithmeticOverflow
    else .ok (fee_amount, purchase_amount - fee_amount)

/-- The effect of a successful `purchase_data`: the updated listing and
marketplace accounts, the amount transferred from the buyer's token account
to the owner's, and the fee transfer to the marketplace's token account
(`none` when `fee_amount` is zero: the source only issues the second
transfer under `if fee_amount > 0`). -/
structure PurchaseOutcome where
  listing : DataListing
  marketplace : Marketplace
  owner_amount : Nat
  fee_transfer : Option Nat
deriving DecidableEq, Repr

/-- `purchase_data` (lib.rs lines 68-154), with its `require!` chain in
source order: listing active, listing id matches, seller identity
`Verified` and owning the listing, buyer identity `Verified` and owned by
the calling buyer, permission active, the mapped category contained in the
permission's `data_types`, and, when `expires_at` is set, `now <` it.
Then the fee split, the two token transfers, and the account updates:
listing inactive with `buyer` and `sold_at` recorded, and
`total_volume += purchase_amount` (the gross price, wrapping `u64`).
Recording `buyer` and `sold_at` grows the listing record by 40 bytes
(`none → some` on a `Pubkey` and an `i64` option), so the exit write-back
fails with `AccountDidNotSerialize` when the grown record exceeds
`DataListing::LEN` — reachable, because `create_data_listing` never bounds
the listing's strings below the allocation's slack. -/
def purchase_data (listing_id : Nat) (listing : DataListing)
    (marketplace : Marketplace)
    (seller_identity buyer_identity : DatasovIdentity.IdentityAccount)
    (buyer_permission : DatasovIdentity.AccessPermission) (buyer : Pubkey)
    (now : Int) : Except ErrorCode PurchaseOutcome :=
  if ¬ listing.is_active then .error .ListingNotActive
  else if listing.id ≠ listing_id then .error .InvalidListingId
  else if seller_identity.status ≠ DatasovIdentity.IdentityStatus.Verified then
    .error .SellerNotVerified
  else if seller_identity.owner ≠ listing.owner then .error .IdentityMismatch
  else if buyer_identity.status ≠ DatasovIdentity.IdentityStatus.Verified then
    .error .BuyerNotVerified
  else if buyer_identity.owner ≠ buyer then .error .IdentityMismatch
  else if ¬ buyer_permission.is_active then .error .NoAccessPermission
  else if mapDataType listing.data_type ∉ buyer_permission.data_types then
    .error .DataTypeNotAuthorized
  else if buyer_permission.expires_at.any (fun expires_at => expires_at ≤ now) then
    .error .PermissionExpired
  else
    match fee_split listing.price marketplace.fee_basis_points with
    | .error e => .error e
    | .ok (fee_amount, owner_amount) =>
        let listing' : DataListing :=
          { listing with
             is_active := false
             buyer := some buyer
             sold_at := some now }
        if DataListing.LEN < listing'.serializedSize then
          .error .AccountDidNotSerialize
        else
          .ok { listing := listing'
                marketplace := { marketplace with
                                  total_volume :=
                                    (marketplace.total_volume + listing.price) % 2 ^ 64 }
                owner_amount := owner_amount
                fee_transfer := if 0 < fee_amount then some fee_amount else none }

/-- `update_listing_price` (lib.rs lines 157-170): requires the listing
active and the caller to be its owner; stores `new_price` with no
validation of the value. -/
def update_listing_price (listing : DataListing) (owner : Pubkey)
    (new_price : Nat) : Except ErrorCode DataListing :=
  if ¬ listing.is_active then .error .ListingNotActive
  else if listing.owner ≠ owner then .error .Unauthorized
  else .ok { listing with price := new_price }

/-- `cancel_listing` (lib.rs lines 173-186): requires the listing active
and the caller to be its owner; deactivates it and records
`cancelled_at`, which grows the record by 8 bytes, so the exit write-back
fails with `AccountDidNotSerialize` when the grown record exceeds
`DataListing::LEN`. -/
def cancel_listing (listing : DataListing) (owner : Pubkey) (now : Int) :
    Except ErrorCode DataListing :=
  if ¬ listing.is_active then .error .ListingNotActive
  else if listing.owner ≠ owner then .error .Unauthorized
  else
    let listing' : DataListing :=
      { listing with is_active := false, cancelled_at := some now }
    if DataListing.LEN < listing'.serializedSize then
      .error .AccountDidNotSerialize
    else .ok listing'

/-- `withdraw_fees` (lib.rs lines 189-213): requires the caller to be the
marketplace authority, then transfers `amount` out of the marketplace's
token account (returned here as the moved amount; the `Marketplace` record
itself is not modified). -/
def withdraw_fees (marketplace : Marketplace) (authority : Pubkey)
    (amount : Nat) : Except ErrorCode Nat :=
  if marketplace.authority ≠ authority then .error .Unauthorized
  else .ok amount

end DatasovSolana

deriving instance DecidableEq for Except

open DatasovIdentity (IdentityAccount IdentityStatus VerificationLevel
  KYCOracle KYCOracleRegistry AccessPermission PermissionType
  register_oracle verify_identity revoke_identity validate_access)
open DatasovSolana (Marketplace DataListing PurchaseOutcome fee_split
  purchase_data create_data_listing initialize_marketplace
  update_listing_price cancel_listing withdraw_fees mapDataType)

/-- Whenever the true fee fits in `u64` — in particular whenever
`fee_basis_points ≤ 10000` and the price is a `u64` value — `fee_split`
returns exactly the floored fee and the exact remainder. -/
theorem fee_split_eq_of_bounds (price bps : Nat) (hp : price < 2 ^ 64)
    (hb : bps ≤ 10000) :
    fee_split price bps =
      .ok (price * bps / 10000, price - price * bps / 10000) := by
  have hprod : price * bps < 2 ^ 128 := by
    calc price * bps ≤ price * 10000 := Nat.mul_le_mul le_rfl hb
    _ < 2 ^ 64 * 10000 := by
        exact Nat.mul_lt_mul_of_lt_of_le hp le_rfl (by norm_num)
    _ < 2 ^ 128 := by norm_num
  have hfee_le : price * bps / 10000 ≤ price := by
    calc price * bps / 10000 ≤ price * 10000 / 10000 :=
          Nat.div_le_div_right (Nat.mul_le_mul le_rfl hb)
    _ = price := Nat.mul_div_cancel price (by norm_num)
  have hmod : price * bps / 10000 % 2 ^ 64 = price * bps / 10000 :=
    Nat.mod_eq_of_lt (lt_of_le_of_lt hfee_le hp)
  simp only [fee_split, hmod]
  rw [if_neg (Nat.not_le.mpr hprod), if_neg (Nat.not_lt.mpr hfee_le)]

/-- C1 (amended): for every `price` in the `u64` range and every
`feeBasisPoints ≤ 10000`, the purchase fee computation yields exactly
`fee = floor(price * feeBasisPoints / 10000)` and `net = price − fee` with
`fee ≤ price` and `net + fee = price`, and no step fails; in particular
`price = 1_000_000, feeBasisPoints = 250` gives `fee = 25_000`,
`net = 975_000`, and `price = 3, feeBasisPoints = 1` gives `fee = 0`,
`net = 3` (see the witness).  The restriction to `feeBasisPoints ≤ 10000`
is forced by the counterexample: for larger rates the `as u64` cast of the
`u128` quotient truncates silently instead of failing with
`ArithmeticOverflow`. -/
theorem c1_fee_split_exact (price bps : Nat) (hp : price < 2 ^ 64)
    (hb : bps ≤ 10000) :
    fee_split price bps =
        .ok (price * bps / 10000, price - price * bps / 10000) ∧
      price * bps / 10000 ≤ price ∧
      (price - price * bps / 10000) + price * bps / 10000 = price := by
  have hfee_le : price * bps / 10000 ≤ price := by
    calc price * bps / 10000 ≤ price * 10000 / 10000 :=
          Nat.div_le_div_right (Nat.mul_le_mul le_rfl hb)
    _ = price := Nat.mul_div_cancel price (by norm_num)
  exact ⟨fee_split_eq_of_bounds price bps hp hb, hfee_le,
    Nat.sub_add_cancel hfee_le⟩

/-- C1 witness: the two concrete fee computations named by the claim.
`1_000_000 * 250 / 10000 = 25_000` and `3 * 1 / 10000 = 0`. -/
theorem c1_fee_split_exact_witness :
    (fee_split 1000000 250 =
        .ok (1000000 * 250 / 10000, 1000000 - 1000000 * 250 / 10000) ∧
      1000000 * 250 / 10000 ≤ 1000000 ∧
      (1000000 - 1000000 * 250 / 10000) + 1000000 * 250 / 10000 = 1000000) ∧
    (fee_split 3 1 = .ok (3 * 1 / 10000, 3 - 3 * 1 / 10000) ∧
      3 * 1 / 10000 ≤ 3 ∧ (3 - 3 * 1 / 10000) + 3 * 1 / 10000 = 3) ∧
    1000000 * 250 / 10000 = 25000 ∧ 1000000 - 25000 = 975000 ∧
    3 * 1 / 10000 = 0 :=
  ⟨c1_fee_split_exact 1000000 250 (by decide) (by decide),
   c1_fee_split_exact 3 1 (by decide) (by decide),
   by decide, by decide, by decide⟩

/-- C1 counterexample: at `price = 2 ^ 64 − 1` (a valid `u64`) and
`feeBasisPoints = 20000` (a valid `u16`, accepted unchecked by
`initialize_marketplace`), the true floored fee is `2 ^ 65 − 2`, which does
not fit in `u64`; the computation does not fail with `ArithmeticOverflow`
but succeeds with the silently truncated fee `2 ^ 64 − 2` and `net = 1`. -/
theorem c1_counterexample :
    fee_split (2 ^ 64 - 1) 20000 = .ok (2 ^ 64 - 2, 1) ∧
    (2 ^ 64 - 1) * 20000 / 10000 = 2 ^ 65 - 2 ∧
    ((2 : Nat) ^ 64 - 2 ≠ 2 ^ 65 - 2) := by decide

/-! Concrete sample accounts, used by the witness theorems: a verified
seller identity (key byte `105`, owner `10`), a verified buyer identity
(owner `20`), a never-expiring active `HealthData` grant from the seller's
identity to the buyer, an active `HealthData` listing at price 1_000_000,
and a marketplace at 250 basis points. -/

/-- A verified seller identity, owner `10`. -/
def seller0 : IdentityAccount :=
  { identity_id := [105], owner := 10, arweave_tx_id := [116],
    status := .Verified, verification_level := .Basic, verified_at := some 1,
    created_at := 0, updated_at := 1, bump := 255 }

/-- A verified buyer identity, owner `20`. -/
def buyerIdent0 : IdentityAccount :=
  { identity_id := [106], owner := 20, arweave_tx_id := [117],
    status := .Verified, verification_level := .Basic, verified_at := some 1,
    created_at := 0, updated_at := 1, bump := 254 }

/-- An active, never-expiring `HealthData` grant to consumer `20`. -/
def perm0 : AccessPermission :=
  { identity_id := [105], consumer := 20, permission_type := .ReadOnly,
    data_types := [.HealthData], granted_at := 1, expires_at := none,
    is_active := true, arweave_proof_tx_id := [118], bump := 253 }

/-- An active `HealthData` listing, id `1`, seller `10`, price 1_000_000. -/
def listing0 : DataListing :=
  { id := 1, owner := 10, price := 1000000, data_type := .HealthData,
    description := [100], identity_id := [105], is_active := true,
    created_at := 2, sold_at := none, cancelled_at := none, buyer := none,
    bump := 252 }

/-- A marketplace at 250 basis points. -/
def marketplace0 : Marketplace :=
  { authority := 1, fee_basis_points := 250, total_listings := 1,
    total_volume := 0, bump := 251 }

/-- C2: when the listing is active with a matching id, both identities are
`Verified` and bound to the listing's seller and to the calling buyer, the
buyer's grant is active, unexpired, and contains the listing's mapped
category, and the sold listing record (grown by the recorded `buyer` and
`sold_at`) still fits its allocated `DataListing::LEN` bytes — always the
case for listings within the intended 200-byte description budget —
`purchase_data` succeeds: the listing becomes inactive with the buyer and
a sold-at timestamp recorded, the seller's token account receives
`price − fee` and the marketplace's token account `fee` (when nonzero),
and `total_volume` grows by the gross `price`, not the net amount. -/
theorem c2_purchase_success (listing_id : Nat) (l : DataListing)
    (m : Marketplace) (sid bid : IdentityAccount) (perm : AccessPermission)
    (buyer : Pubkey) (now : Int)
    (hact : l.is_active = true) (hid : l.id = listing_id)
    (hs : sid.status = .Verified) (hso : sid.owner = l.owner)
    (hb : bid.status = .Verified) (hbo : bid.owner = buyer)
    (hperm : perm.is_active = true)
    (hcat : mapDataType l.data_type ∈ perm.data_types)
    (hexp : ∀ e, perm.expires_at = some e → now < e)
    (hprice : l.price < 2 ^ 64) (hbps : m.fee_basis_points ≤ 10000)
    (hvol : m.total_volume + l.price < 2 ^ 64)
    (hfit : DataListing.serializedSize
        { l with
           is_active := false
           buyer := some buyer
           sold_at := some now } ≤ DataListing.LEN) :
    purchase_data listing_id l m sid bid perm buyer now =
      .ok { listing := { l with
                          is_active := false
                          buyer := some buyer
                          sold_at := some now }
            marketplace := { m with
                              total_volume := m.total_volume + l.price }
            owner_amount := l.price - l.price * m.fee_basis_points / 10000
            fee_transfer :=
              if 0 < l.price * m.fee_basis_points / 10000 then
                some (l.price * m.fee_basis_points / 10000)
              else none } := by
  have hany : perm.expires_at.any (fun e => decide (e ≤ now)) = false := by
    cases hE : perm.expires_at with
    | none => rfl
    | some e => simpa using not_le.mpr (hexp e hE)
  unfold purchase_data
  rw [if_neg (by simp [hact]), if_neg (by simp [hid]), if_neg (by simp [hs]),
      if_neg (by simp [hso]), if_neg (by simp [hb]), if_neg (by simp [hbo]),
      if_neg (by simp [hperm]), if_neg (by simp [hcat]),
      if_neg (by simp [hany]),
      fee_split_eq_of_bounds l.price m.fee_basis_points hprice hbps]
  simp only []
  rw [if_neg (Nat.not_lt.mpr hfit), Nat.mod_eq_of_lt hvol]

/-- C2 witness: the end-to-end scenario at the sample accounts — the
listing sells to buyer `20` at time 5, volume grows by the gross
1_000_000, the seller receives 975_000 and the marketplace 25_000. -/
theorem c2_purchase_success_witness :
    purchase_data 1 listing0 marketplace0 seller0 buyerIdent0 perm0 20 5 =
      .ok { listing := { listing0 with
                          is_active := false
                          buyer := some 20
                          sold_at := some 5 }
            marketplace := { marketplace0 with
                              total_volume :=
                                marketplace0.total_volume + listing0.price }
            owner_amount :=
              listing0.price -
                listing0.price * marketplace0.fee_basis_points / 10000
            fee_transfer :=
              if 0 < listing0.price * marketplace0.fee_basis_points / 10000 then
                some (listing0.price * marketplace0.fee_basis_points / 10000)
              else none } :=
  c2_purchase_success 1 listing0 marketplace0 seller0 buyerIdent0 perm0 20 5
    rfl rfl rfl rfl rfl rfl rfl (by decide) (fun e h => nomatch h)
    (by decide) (by decide) (by decide) (by decide)

/-- C3: when every check before the category check passes but the buyer's
grant does not contain the listing's mapped data category, `purchase_data`
fails with `DataTypeNotAuthorized` and returns no successful outcome: no
account is mutated and no value is transferred (an `Except.error` result
models the rolled-back transaction, which carries no state change). -/
theorem c3_purchase_unauthorized_category (listing_id : Nat)
    (l : DataListing) (m : Marketplace) (sid bid : IdentityAccount)
    (perm : AccessPermission) (buyer : Pubkey) (now : Int)
    (hact : l.is_active = true) (hid : l.id = listing_id)
    (hs : sid.status = .Verified) (hso : sid.owner = l.owner)
    (hb : bid.status = .Verified) (hbo : bid.owner = buyer)
    (hperm : perm.is_active = true)
    (hcat : mapDataType l.data_type ∉ perm.data_types) :
    purchase_data listing_id l m sid bid perm buyer now =
        .error .DataTypeNotAuthorized ∧
      ∀ out, purchase_data listing_id l m sid bid perm buyer now ≠ .ok out := by
  have h : purchase_data listing_id l m sid bid perm buyer now =
      .error .DataTypeNotAuthorized := by
    unfold purchase_data
    rw [if_neg (by simp [hact]), if_neg (by simp [hid]),
        if_neg (by simp [hs]), if_neg (by simp [hso]), if_neg (by simp [hb]),
        if_neg (by simp [hbo]), if_neg (by simp [hperm]), if_pos hcat]
  exact ⟨h, fun out hout => by rw [h] at hout; cases hout⟩

/-- C3 witness: the spec's negative scenario — the same sample setup but
with a grant whose category set is `{AppUsage}` only; buying the
`HealthData` listing fails with the category-authorization error. -/
theorem c3_purchase_unauthorized_category_witness :
    purchase_data 1 listing0 marketplace0 seller0 buyerIdent0
        { perm0 with data_types := [.AppUsage] } 20 5 =
        .error .DataTypeNotAuthorized ∧
      ∀ out, purchase_data 1 listing0 marketplace0 seller0 buyerIdent0
        { perm0 with data_types := [.AppUsage] } 20 5 ≠ .ok out :=
  c3_purchase_unauthorized_category 1 listing0 marketplace0 seller0
    buyerIdent0 { perm0 with data_types := [.AppUsage] } 20 5
    rfl rfl rfl rfl rfl rfl rfl (by decide)

/-- C4: `validate_access` succeeds exactly when the backing identity is
currently `Verified`, the grant is active, the requested data type is in
the grant's category set, and any set expiry lies strictly after `now`
(so it fails once `now ≥ expiry`).  The handler takes its accounts by
shared reference and returns `Unit`: it mutates nothing. -/
theorem c4_validate_access_iff (identity : IdentityAccount)
    (perm : AccessPermission) (dt : DatasovIdentity.DataType) (now : Int) :
    validate_access identity perm dt now = .ok () ↔
      (identity.status = .Verified ∧ perm.is_active = true ∧
        dt ∈ perm.data_types ∧ ∀ e, perm.expires_at = some e → now < e) := by
  unfold validate_access
  rcases hE : perm.expires_at with _ | e <;> simp [hE] <;> split_ifs <;>
    simp_all

/-- C5: `verify_identity` fails with `InvalidStatus` whenever the identity
is not exactly `Pending` (in particular on an already-`Verified` one), with
`OracleNotActive` when it is `Pending` but the oracle is inactive, and on
the success path (which also requires the new evidence reference within
128 bytes) sets `status = Verified`, the requested level, the verified-at
timestamp, the new evidence reference, and increments both the oracle's
attempt counter and its success counter; a success implies the identity
was `Pending` and the oracle active. -/
theorem c5_verify_identity (identity : IdentityAccount) (oracle : KYCOracle)
    (level : VerificationLevel) (txid : Bytes) (now : Int) :
    (identity.status ≠ .Pending →
        verify_identity identity oracle level txid now =
          .error .InvalidStatus) ∧
      (identity.status = .Pending → oracle.is_active = false →
        verify_identity identity oracle level txid now =
          .error .OracleNotActive) ∧
      (identity.status = .Pending → oracle.is_active = true →
        txid.length ≤ 128 → oracle.verification_count + 1 < 2 ^ 64 →
        oracle.successful_verifications + 1 < 2 ^ 64 →
        verify_identity identity oracle level txid now =
          .ok ({ identity with
                  status := .Verified
                  verification_level := level
                  verified_at := some now
                  arweave_tx_id := txid
                  updated_at := now },
               { oracle with
                  verification_count := oracle.verification_count + 1
                  successful_verifications :=
                    oracle.successful_verifications + 1 })) ∧
      (∀ r, verify_identity identity oracle level txid now = .ok r →
        identity.status = .Pending ∧ oracle.is_active = true) := by
  refine ⟨?_, ?_, ?_, ?_⟩
  · intro h; unfold verify_identity; rw [if_pos h]
  · intro h1 h2; unfold verify_identity
    rw [if_neg (by simp [h1]), if_pos (by simp [h2])]
  · intro h1 h2 h3 h4 h5; unfold verify_identity
    rw [if_neg (by simp [h1]), if_neg (by simp [h2]), if_neg (by simp [h3]),
        Nat.mod_eq_of_lt h4, Nat.mod_eq_of_lt h5]
  · intro r hr
    unfold verify_identity at hr
    by_cases h1 : identity.status = IdentityStatus.Pending
    · by_cases h2 : oracle.is_active = true
      · exact ⟨h1, h2⟩
      · rw [if_neg (by simp [h1]), if_pos (by simp [h2])] at hr; cases hr
    · rw [if_pos h1] at hr; cases hr

/-- `fee_split` can only fail with `ArithmeticOverflow`: its two fallible
steps are the checked `u128` multiplication and the checked subtraction. -/
theorem fee_split_error_is_overflow (p b : Nat) (e : DatasovSolana.ErrorCode)
    (h : fee_split p b = .error e) :
    e = DatasovSolana.ErrorCode.ArithmeticOverflow := by
  simp only [fee_split] at h
  split_ifs at h <;> simp_all

/-- A successful `create_data_listing` returns the marketplace with its
`fee_basis_points` unchanged. -/
theorem create_data_listing_fee_invariant (lid price : Nat)
    (dt : DatasovSolana.DataType) (desc iid : Bytes) (m : Marketplace)
    (sid : IdentityAccount) (owner : Pubkey) (now : Int) (b : Nat)
    (l2 : DataListing) (m2 : Marketplace)
    (h : create_data_listing lid price dt desc iid m sid owner now b =
      .ok (l2, m2)) : m2.fee_basis_points = m.fee_basis_points := by
  simp only [create_data_listing] at h
  split_ifs at h
  simp_all
  obtain ⟨-, h2⟩ := h
  subst h2
  rfl

/-- Every run of `purchase_data` either fails — never with `InvalidPrice`
— or succeeds with the determined listing, marketplace and transfer
amounts. -/
theorem purchase_data_result (lid : Nat) (l : DataListing) (m : Marketplace)
    (sid bid : IdentityAccount) (perm : AccessPermission) (buyer : Pubkey)
    (now : Int) :
    (∃ e, purchase_data lid l m sid bid perm buyer now = .error e ∧
        e ≠ DatasovSolana.ErrorCode.InvalidPrice) ∨
      (∃ fee net, purchase_data lid l m sid bid perm buyer now =
        .ok { listing := { l with
                            is_active := false
                            buyer := some buyer
                            sold_at := some now }
              marketplace := { m with
                                total_volume :=
                                  (m.total_volume + l.price) % 2 ^ 64 }
              owner_amount := net
              fee_transfer := if 0 < fee then some fee else none }) := by
  unfold purchase_data
  by_cases h1 : l.is_active = true
  case neg =>
    rw [if_pos (by simp [h1])]
    exact Or.inl ⟨_, rfl, by decide⟩
  rw [if_neg (by simp [h1])]
  by_cases h2 : l.id = lid
  case neg =>
    rw [if_pos h2]
    exact Or.inl ⟨_, rfl, by decide⟩
  rw [if_neg (by simp [h2])]
  by_cases h3 : sid.status = IdentityStatus.Verified
  case neg =>
    rw [if_pos h3]
    exact Or.inl ⟨_, rfl, by decide⟩
  rw [if_neg (by simp [h3])]
  by_cases h4 : sid.owner = l.owner
  case neg =>
    rw [if_pos h4]
    exact Or.inl ⟨_, rfl, by decide⟩
  rw [if_neg (by simp [h4])]
  by_cases h5 : bid.status = IdentityStatus.Verified
  case neg =>
    rw [if_pos h5]
    exact Or.inl ⟨_, rfl, by decide⟩
  rw [if_neg (by simp [h5])]
  by_cases h6 : bid.owner = buyer
  case neg =>
    rw [if_pos h6]
    exact Or.inl ⟨_, rfl, by decide⟩
  rw [if_neg (by simp [h6])]
  by_cases h7 : perm.is_active = true
  case neg =>
    rw [if_pos (by simp [h7])]
    exact Or.inl ⟨_, rfl, by decide⟩
  rw [if_neg (by simp [h7])]
  by_cases h8 : mapDataType l.data_type ∈ perm.data_types
  case neg =>
    rw [if_pos h8]
    exact Or.inl ⟨_, rfl, by decide⟩
  rw [if_neg (by simp [h8])]
  by_cases h9 :
    Option.any (fun expires_at => decide (expires_at ≤ now)) perm.expires_at
      = true
  case neg =>
    rw [if_neg h9]
    rcases hfs : fee_split l.price m.fee_basis_points with e | ⟨fee, net⟩
    · refine Or.inl ⟨e, rfl, ?_⟩
      have he := fee_split_error_is_overflow l.price m.fee_basis_points e hfs
      subst he
      decide
    · simp only []
      by_cases hfit : DataListing.LEN <
        DataListing.serializedSize
          { l with
             is_active := false
             buyer := some buyer
             sold_at := some now }
      · rw [if_pos hfit]
        exact Or.inl ⟨_, rfl, by decide⟩
      · rw [if_neg hfit]
        exact Or.inr ⟨fee, net, rfl⟩
  rw [if_pos h9]
  exact Or.inl ⟨_, rfl, by decide⟩

/-- A successful `purchase_data` returns the marketplace with its
`fee_basis_points` unchanged. -/
theorem purchase_data_fee_invariant (lid : Nat) (l : DataListing)
    (m : Marketplace) (sid bid : IdentityAccount) (perm : AccessPermission)
    (buyer : Pubkey) (now : Int) (out : PurchaseOutcome)
    (h : purchase_data lid l m sid bid perm buyer now = .ok out) :
    out.marketplace.fee_basis_points = m.fee_basis_points := by
  rcases purchase_data_result lid l m sid bid perm buyer now with
    ⟨e, he, -⟩ | ⟨fee, net, hok⟩
  · rw [he] at h; cases h
  · rw [hok] at h
    cases h
    rfl

/-- C6 (amended): `initialize_marketplace` stores whatever `u16` fee rate
it is given — the full range `[0, 65535]`, with no check against 10000 —
and no later operation changes it: `create_data_listing` and
`purchase_data` return the marketplace with `fee_basis_points` unchanged,
and `update_listing_price`, `cancel_listing` and `withdraw_fees` write no
marketplace field at all (their embeddings do not even return one).  The
claim's bound of 10000 is refuted by the counterexample. -/
theorem c6_fee_rate_fixed (authority bps bump : Nat) (hb : bps < 2 ^ 16) :
    (initialize_marketplace authority bps bump).fee_basis_points = bps ∧
      (initialize_marketplace authority bps bump).fee_basis_points < 2 ^ 16 ∧
      (∀ lid price dt desc iid m sid owner now b l2 m2,
        create_data_listing lid price dt desc iid m sid owner now b =
          .ok (l2, m2) → m2.fee_basis_points = m.fee_basis_points) ∧
      (∀ lid l m sid bid perm buyer now out,
        purchase_data lid l m sid bid perm buyer now = .ok out →
        out.marketplace.fee_basis_points = m.fee_basis_points) := by
  refine ⟨rfl, hb, ?_, ?_⟩
  · intro lid price dt desc iid m sid owner now b l2 m2 h
    exact create_data_listing_fee_invariant lid price dt desc iid m sid
      owner now b l2 m2 h
  · intro lid l m sid bid perm buyer now out h
    exact purchase_data_fee_invariant lid l m sid bid perm buyer now out h

/-- C6 witness: a marketplace initialized at 250 basis points stores 250,
a `u16` value, and the fee rate is preserved by the mutating handlers. -/
theorem c6_fee_rate_fixed_witness :
    (initialize_marketplace 0 250 0).fee_basis_points = 250 ∧
      (initialize_marketplace 0 250 0).fee_basis_points < 2 ^ 16 ∧
      (∀ lid price dt desc iid m sid owner now b l2 m2,
        create_data_listing lid price dt desc iid m sid owner now b =
          .ok (l2, m2) → m2.fee_basis_points = m.fee_basis_points) ∧
      (∀ lid l m sid bid perm buyer now out,
        purchase_data lid l m sid bid perm buyer now = .ok out →
        out.marketplace.fee_basis_points = m.fee_basis_points) :=
  c6_fee_rate_fixed 0 250 0 (by decide)

/-- C6 counterexample: `initialize_marketplace` accepts the `u16` fee rate
20000 unchecked and stores it, although `20000 ∉ [0, 10000]`. -/
theorem c6_counterexample :
    (initialize_marketplace 0 20000 0).fee_basis_points = 20000 ∧
      ¬ (initialize_marketplace 0 20000 0).fee_basis_points ≤ 10000 := by
  decide

/-- C7 (amended): `create_data_listing` applies no explicit length check to
`description` (unlike `register_identity`, whose string inputs are
`require!`-checked): with a `Verified` backing identity owned by the
caller it succeeds whenever the serialized listing fits the allocated 390
bytes — a budget whose slack (the unused `Option` space reserved for
`sold_at`, `cancelled_at` and `buyer`) admits descriptions of more than
200 bytes, as the counterexample shows at 201 bytes.  On success the
listing is created active and the marketplace listing counter is
incremented. -/
theorem c7_create_listing (lid price : Nat) (dt : DatasovSolana.DataType)
    (desc iid : Bytes) (m : Marketplace) (sid : IdentityAccount)
    (owner : Pubkey) (now : Int) (bump : Nat)
    (hs : sid.status = .Verified) (ho : sid.owner = owner)
    (hfit : DataListing.serializedSize
        { id := lid
          owner := owner
          price := price
          data_type := dt
          description := desc
          identity_id := iid
          is_active := true
          created_at := now
          sold_at := none
          cancelled_at := none
          buyer := none
          bump := bump } ≤ DataListing.LEN)
    (hcnt : m.total_listings + 1 < 2 ^ 64) :
    create_data_listing lid price dt desc iid m sid owner now bump =
      .ok ({ id := lid
             owner := owner
             price := price
             data_type := dt
             description := desc
             identity_id := iid
             is_active := true
             created_at := now
             sold_at := none
             cancelled_at := none
             buyer := none
             bump := bump },
           { m with total_listings := m.total_listings + 1 }) := by
  simp only [create_data_listing]
  rw [if_neg (by simp [hs]), if_neg (by simp [ho]),
      if_neg (Nat.not_lt.mpr hfit), Nat.mod_eq_of_lt hcnt]

set_option maxRecDepth 8000 in
/-- C7 witness: the amended success case at a 201-byte description. -/
theorem c7_create_listing_witness :
    create_data_listing 2 5 (.HealthData) (List.replicate 201 97) [105]
        marketplace0 seller0 10 3 250 =
      .ok ({ id := 2
             owner := 10
             price := 5
             data_type := .HealthData
             description := List.replicate 201 97
             identity_id := [105]
             is_active := true
             created_at := 3
             sold_at := none
             cancelled_at := none
             buyer := none
             bump := 250 },
           { marketplace0 with
              total_listings := marketplace0.total_listings + 1 }) :=
  c7_create_listing 2 5 (.HealthData) (List.replicate 201 97) [105]
    marketplace0 seller0 10 3 250 rfl rfl (by decide) (by decide)

set_option maxRecDepth 8000 in
/-- C7 counterexample: a 201-byte description — longer than the claimed
200-byte limit — is accepted: `create_data_listing` succeeds on it (with a
verified seller identity owned by the caller). -/
theorem c7_counterexample :
    200 < (List.replicate 201 97 : Bytes).length ∧
      (create_data_listing 2 5 (.HealthData) (List.replicate 201 97) [105]
        marketplace0 seller0 10 3 250).isOk = true := by decide

/-- C8: `register_oracle` never creates an oracle whose display name
exceeds 64 bytes — such a record cannot be written back into the
`KYCOracle::LEN`-byte account, so the registration fails — and for a name
of at most 64 bytes with `stake_amount ≥ minimum_stake` it succeeds,
creating the oracle with both verification counters at zero, reputation
5000, `is_active = true`, and incrementing the registry's oracle count. -/
theorem c8_register_oracle (r : KYCOracleRegistry) (authPk : Pubkey)
    (name : Bytes) (stake : Nat) (now : Int) (bump : Nat) :
    (64 < name.length →
        ∀ res, register_oracle r authPk name stake now bump ≠ .ok res) ∧
      (name.length ≤ 64 → r.minimum_stake ≤ stake →
        r.oracle_count + 1 < 2 ^ 32 →
        register_oracle r authPk name stake now bump =
          .ok ({ r with oracle_count := r.oracle_count + 1 },
               { oracle_pubkey := authPk
                 provider_name := name
                 stake_amount := stake
                 verification_count := 0
                 successful_verifications := 0
                 reputation_score := 5000
                 is_active := true
                 registered_at := now
                 bump := bump })) := by
  constructor
  · intro hlen res h
    simp only [register_oracle] at h
    split_ifs at h with h1 h2
    unfold DatasovIdentity.KYCOracle.serializedSize
      DatasovIdentity.KYCOracle.LEN at h2
    simp only [] at h2
    omega
  · intro hlen hstake hcnt
    simp only [register_oracle]
    rw [if_neg (Nat.not_lt.mpr hstake),
        if_neg (by
          unfold DatasovIdentity.KYCOracle.serializedSize
            DatasovIdentity.KYCOracle.LEN
          simp only []
          omega),
        Nat.mod_eq_of_lt hcnt]

/-- An already-revoked identity, used by the C9 witness to show that
`revoke_identity` re-revokes without any precondition on the status. -/
def revokedIdent0 : IdentityAccount :=
  { identity_id := [107], owner := 30, arweave_tx_id := [120],
    status := .Revoked, verification_level := .None, verified_at := none,
    created_at := 0, updated_at := 2, bump := 250 }

/-- C9: `revoke_identity` called by the identity's owner (with an evidence
reference within the 128-byte limit) succeeds for every identity,
whatever its current status — `Pending`, `Verified`, `Revoked` or
`Suspended`; the identity is universally quantified and no hypothesis
mentions its status — setting `status = Revoked` and overwriting the
stored evidence reference with the revocation evidence reference. -/
theorem c9_revoke_identity (identity : IdentityAccount) (owner : Pubkey)
    (txid : Bytes) (now : Int) (ho : identity.owner = owner)
    (hlen : txid.length ≤ 128) :
    revoke_identity identity owner txid now =
      .ok { identity with
             status := .Revoked
             arweave_tx_id := txid
             updated_at := now } := by
  unfold revoke_identity
  rw [if_neg (by simp [ho]), if_neg (by simp [hlen])]

/-- C9 witness: re-revoking an already-`Revoked` identity succeeds and
overwrites its evidence reference. -/
theorem c9_revoke_identity_witness :
    revoke_identity revokedIdent0 30 [121] 9 =
      .ok { revokedIdent0 with
             status := .Revoked
             arweave_tx_id := [121]
             updated_at := 9 } :=
  c9_revoke_identity revokedIdent0 30 [121] 9 rfl (by decide)

set_option maxHeartbeats 1000000 in
/-- C10: `update_listing_price`, called by the owner of an active listing,
succeeds for every new price — including zero — with no validity check on
the value; and no handler of the marketplace program ever returns the
declared `InvalidPrice` error (`initialize_marketplace` cannot fail at
all, and the five fallible handlers are each quantified below). -/
theorem c10_update_price_unrestricted (l : DataListing) (owner : Pubkey)
    (new_price : Nat) (hact : l.is_active = true) (ho : l.owner = owner) :
    update_listing_price l owner new_price =
        .ok { l with price := new_price } ∧
      (∀ lid price dt desc iid m sid o now b,
        create_data_listing lid price dt desc iid m sid o now b ≠
          .error DatasovSolana.ErrorCode.InvalidPrice) ∧
      (∀ lid l2 m sid bid perm buyer now,
        purchase_data lid l2 m sid bid perm buyer now ≠
          .error DatasovSolana.ErrorCode.InvalidPrice) ∧
      (∀ l2 o p, update_listing_price l2 o p ≠
        .error DatasovSolana.ErrorCode.InvalidPrice) ∧
      (∀ l2 o now, cancel_listing l2 o now ≠
        .error DatasovSolana.ErrorCode.InvalidPrice) ∧
      (∀ m2 a amt, withdraw_fees m2 a amt ≠
        .error DatasovSolana.ErrorCode.InvalidPrice) := by
  refine ⟨?_, ?_, ?_, ?_, ?_, ?_⟩
  · unfold update_listing_price
    rw [if_neg (by simp [hact]), if_neg (by simp [ho])]
  · intro lid price dt desc iid m sid o now b h
    simp only [create_data_listing] at h
    split_ifs at h <;> simp_all
  · intro lid l2 m sid bid perm buyer now h
    rcases purchase_data_result lid l2 m sid bid perm buyer now with
      ⟨e, he, hne⟩ | ⟨fee, net, hok⟩
    · rw [he] at h
      cases h
      exact hne rfl
    · rw [hok] at h
      cases h
  · intro l2 o p h
    unfold update_listing_price at h
    split_ifs at h <;> simp_all
  · intro l2 o now h
    simp only [cancel_listing] at h
    split_ifs at h <;> simp_all
  · intro m2 a amt h
    unfold withdraw_fees at h
    split_ifs at h
    simp_all

/-- C10 witness: the owner of the active sample listing sets its price to
zero, and the `InvalidPrice`-freedom of every fallible handler. -/
theorem c10_update_price_unrestricted_witness :
    update_listing_price listing0 10 0 = .ok { listing0 with price := 0 } ∧
      (∀ lid price dt desc iid m sid o now b,
        create_data_listing lid price dt desc iid m sid o now b ≠
          .error DatasovSolana.ErrorCode.InvalidPrice) ∧
      (∀ lid l2 m sid bid perm buyer now,
        purchase_data lid l2 m sid bid perm buyer now ≠
          .error DatasovSolana.ErrorCode.InvalidPrice) ∧
      (∀ l2 o p, update_listing_price l2 o p ≠
        .error DatasovSolana.ErrorCode.InvalidPrice) ∧
      (∀ l2 o now, cancel_listing l2 o now ≠
        .error DatasovSolana.ErrorCode.InvalidPrice) ∧
      (∀ m2 a amt, withdraw_fees m2 a amt ≠
        .error DatasovSolana.ErrorCode.InvalidPrice) :=
  c10_update_price_unrestricted listing0 10 0 rfl rfl
